import Mathlib

/-!
Verification development for the MqttDashboard refrigerator-monitoring core.

Shallow embedding of:
* `src/services/temperature_analyzer.py` — the temperature pattern analyzer
  (`TemperatureAnalyzer`): baseline tracking, rapid/gradual change detection,
  recovery with hysteresis;
* `src/services/heartbeat_monitor.py` — the heartbeat (liveness) monitor;
* `src/utils/time_utils.py` — the hourly persistence predicate
  `should_save_reading`;
* `src/services/data_manager.py` — the coordinating engine
  (`process_sensor_data` emission logic and `_save_to_database`).

Temperatures and instants are modelled as rationals (instants in seconds);
Python `None` becomes `Option`.  Mutation of `self` becomes explicit state
passing: each method returns the updated state together with its result.
-/

attribute [local semireducible] Rat.mul Rat.add Rat.sub Rat.inv

/-- The `TemperatureAlertType` enum of `temperature_analyzer.py`. -/
inductive TemperatureAlertType where
  | NONE
  | DOOR_OPENING
  | CRITICAL_INCREASE
  | CRITICAL_DECREASE
  | OUT_OF_RANGE
deriving DecidableEq, Repr

/-- One buffered reading: `TemperatureReading` of `temperature_analyzer.py`. -/
structure TemperatureReading where
  temperature : ℚ
  timestamp : ℚ
deriving DecidableEq, Repr

/-- `config.TEMP_ALERT_RAPID_CHANGE` (default 3.0 °C). -/
def TEMP_ALERT_RAPID_CHANGE : ℚ := 3

/-- `config.TEMP_ALERT_SLOW_INCREASE` (default 1.5 °C). -/
def TEMP_ALERT_SLOW_INCREASE : ℚ := 3 / 2

/-- `config.TEMP_NORMAL_RANGE_MIN` (default −5.0 °C). -/
def TEMP_NORMAL_RANGE_MIN : ℚ := -5

/-- `config.TEMP_NORMAL_RANGE_MAX` (default 8.0 °C). -/
def TEMP_NORMAL_RANGE_MAX : ℚ := 8

/-- `config.HEARTBEAT_TIMEOUT` (default 6 s). -/
def HEARTBEAT_TIMEOUT : ℚ := 6

/-- Capacity of the readings deque (`deque(maxlen=120)`). -/
def READINGS_MAXLEN : Nat := 120

/-- The mutable fields of `TemperatureAnalyzer` (its `self`). -/
structure AnalyzerState where
  readings : List TemperatureReading
  baseline_temp : Option ℚ
  last_alert : Option TemperatureAlertType
  alert_start_time : Option ℚ
  consecutive_increases : Nat
  consecutive_decreases : Nat
deriving DecidableEq, Repr

/-- `TemperatureAnalyzer.__init__`. -/
def initial_analyzer : AnalyzerState :=
  { readings := [], baseline_temp := none, last_alert := none,
    alert_start_time := none, consecutive_increases := 0, consecutive_decreases := 0 }

/-- The dict returned by `add_reading` / `_create_result`. -/
structure Verdict where
  alert_type : TemperatureAlertType
  alert_message : String
  current_temp : ℚ
  baseline_temp : Option ℚ
  temp_change : ℚ
  is_recovering : Bool
  consecutive_increases : Nat
  consecutive_decreases : Nat
deriving DecidableEq, Repr

/-- Round-half-to-even to an integer, as Python `round` does on exact values. -/
def round_half_even (q : ℚ) : ℤ :=
  if q - ⌊q⌋ = 1 / 2 then (if ⌊q⌋ % 2 = 0 then ⌊q⌋ else ⌊q⌋ + 1) else round q

/-- Python `round(x, 2)`: rounding to 2 decimal places for presentation. -/
def round2 (q : ℚ) : ℚ := (round_half_even (q * 100) : ℚ) / 100

/-- `self.readings.append(reading)` on a `deque(maxlen=120)`: append, evicting
from the front once over capacity. -/
def deque_append (xs : List TemperatureReading) (r : TemperatureReading) :
    List TemperatureReading :=
  let ys := xs ++ [r]
  if READINGS_MAXLEN < ys.length then ys.drop (ys.length - READINGS_MAXLEN) else ys

/-- The guard `self.last_alert and self.last_alert != TemperatureAlertType.NONE`:
`None` is falsy, enum members are truthy. -/
def alert_active (s : AnalyzerState) : Bool :=
  match s.last_alert with
  | none => false
  | some k => decide (k ≠ TemperatureAlertType.NONE)

/-- `_create_result`: sets `self.last_alert` and builds the result dict.
`current_temp` is `self.readings[-1].temperature if self.readings else 0.0`;
`temp_change` and the reported baseline use Python truthiness on
`self.baseline_temp`, so a baseline of exactly `0.0` takes the falsy branch. -/
def create_result (s : AnalyzerState) (k : TemperatureAlertType) (msg : String)
    (recovering : Bool) : AnalyzerState × Verdict :=
  let s' : AnalyzerState := { s with last_alert := some k }
  let current_temp : ℚ :=
    match s'.readings.getLast? with
    | some r => r.temperature
    | none => 0
  let temp_change : ℚ :=
    match s'.baseline_temp with
    | some b => if b = 0 then 0 else current_temp - b
    | none => 0
  let baseline_rep : Option ℚ :=
    match s'.baseline_temp with
    | some b => if b = 0 then none else some (round2 b)
    | none => none
  (s', { alert_type := k, alert_message := msg,
         current_temp := round2 current_temp,
         baseline_temp := baseline_rep,
         temp_change := round2 temp_change,
         is_recovering := recovering,
         consecutive_increases := s'.consecutive_increases,
         consecutive_decreases := s'.consecutive_decreases })

/-- `_update_baseline`: running mean of all readings while fewer than 20 are
buffered; with 20 or more, the mean of the last 20, skipped while an alert is
active. -/
def update_baseline (s : AnalyzerState) : AnalyzerState :=
  if s.readings.length < 20 then
    if 0 < s.readings.length then
      let mean : ℚ :=
        (s.readings.map TemperatureReading.temperature).sum / (s.readings.length : ℚ)
      { s with baseline_temp := some mean }
    else s
  else if alert_active s then s
  else
    let recent := (s.readings.drop (s.readings.length - 20)).map
      TemperatureReading.temperature
    { s with baseline_temp := some (recent.sum / (recent.length : ℚ)) }

/-- `_check_rapid_change`: looks at the samples of the last 5 minutes; a rise
above `TEMP_ALERT_RAPID_CHANGE` over that window reports `DOOR_OPENING`. -/
def check_rapid_change (s : AnalyzerState) (current_temp now : ℚ) :
    AnalyzerState × Option Verdict :=
  let five_min_ago := now - 300
  let old_readings := s.readings.filter (fun r => decide (five_min_ago ≤ r.timestamp))
  if old_readings.length < 5 then (s, none)
  else
    match old_readings with
    | [] => (s, none)
    | oldest :: _ =>
      let temp_change_5min := current_temp - oldest.temperature
      if TEMP_ALERT_RAPID_CHANGE < temp_change_5min then
        let s1 := if s.last_alert ≠ some TemperatureAlertType.DOOR_OPENING then
            { s with alert_start_time := some now }
          else s
        let r := create_result s1 TemperatureAlertType.DOOR_OPENING
          "Posible apertura de puerta" false
        (r.1, some r.2)
      else (s, none)

/-- The consecutive-counter update at the top of `_check_gradual_change`:
compare to `self.readings[-2]`, the reading just before the current one. -/
def update_consecutive (s : AnalyzerState) (current_temp : ℚ) : AnalyzerState :=
  if 2 ≤ s.readings.length then
    match s.readings.dropLast.getLast? with
    | some prev =>
      if prev.temperature < current_temp then
        { s with consecutive_increases := s.consecutive_increases + 1,
                 consecutive_decreases := 0 }
      else if current_temp < prev.temperature then
        { s with consecutive_decreases := s.consecutive_decreases + 1,
                 consecutive_increases := 0 }
      else s
    | none => s
  else s

/-- `_check_gradual_change`: update the consecutive counters, then look at the
samples of the last 10 minutes; a delta beyond `TEMP_ALERT_SLOW_INCREASE`
together with 5 consecutive moves in that direction reports a critical alert. -/
def check_gradual_change (s : AnalyzerState) (current_temp now : ℚ) :
    AnalyzerState × Option Verdict :=
  let s1 := update_consecutive s current_temp
  let ten_min_ago := now - 600
  let old_readings := s1.readings.filter (fun r => decide (ten_min_ago ≤ r.timestamp))
  if old_readings.length < 10 then (s1, none)
  else
    match old_readings with
    | [] => (s1, none)
    | oldest :: _ =>
      let temp_change_10min := current_temp - oldest.temperature
      if TEMP_ALERT_SLOW_INCREASE < temp_change_10min ∧
          5 ≤ s1.consecutive_increases then
        let s2 := if s1.last_alert ≠ some TemperatureAlertType.CRITICAL_INCREASE then
            { s1 with alert_start_time := some now }
          else s1
        let r := create_result s2 TemperatureAlertType.CRITICAL_INCREASE
          "PROBLEMA CRITICO: temperatura aumentando constantemente" false
        (r.1, some r.2)
      else if temp_change_10min < -TEMP_ALERT_SLOW_INCREASE ∧
          5 ≤ s1.consecutive_decreases then
        let s2 := if s1.last_alert ≠ some TemperatureAlertType.CRITICAL_DECREASE then
            { s1 with alert_start_time := some now }
          else s1
        let r := create_result s2 TemperatureAlertType.CRITICAL_DECREASE
          "PROBLEMA CRITICO: temperatura descendiendo anormalmente" false
        (r.1, some r.2)
      else (s1, none)

/-- `_check_recovery`: clear a `DOOR_OPENING` alert once the deviation from the
baseline is within 0.5 °C (resetting `consecutive_increases`), a critical alert
once within 1.0 °C (resetting both counters). -/
def check_recovery (s : AnalyzerState) (temp_change : ℚ) :
    AnalyzerState × Option Verdict :=
  if s.last_alert = some TemperatureAlertType.DOOR_OPENING ∧ |temp_change| < 1 / 2 then
    let s1 : AnalyzerState :=
      { s with consecutive_increases := 0, alert_start_time := none }
    let r := create_result s1 TemperatureAlertType.NONE
      "Temperatura recuperada tras apertura de puerta" true
    (r.1, some r.2)
  else if (s.last_alert = some TemperatureAlertType.CRITICAL_INCREASE ∨
      s.last_alert = some TemperatureAlertType.CRITICAL_DECREASE) ∧
      |temp_change| < 1 then
    let s1 : AnalyzerState :=
      { s with consecutive_increases := 0, consecutive_decreases := 0,
               alert_start_time := none }
    let r := create_result s1 TemperatureAlertType.NONE "Temperatura estabilizada" true
    (r.1, some r.2)
  else (s, none)

/-- `_analyze_pattern`: range check, then rapid change, then gradual change,
then recovery of a previously active alert, else normal (counters reset). -/
def analyze_pattern (s : AnalyzerState) (current_temp now : ℚ) :
    AnalyzerState × Verdict :=
  match s.baseline_temp with
  | none => create_result s TemperatureAlertType.NONE "Estableciendo baseline" false
  | some baseline =>
    let temp_change := current_temp - baseline
    if current_temp < TEMP_NORMAL_RANGE_MIN then
      create_result s TemperatureAlertType.OUT_OF_RANGE "Temperatura demasiado baja" false
    else if TEMP_NORMAL_RANGE_MAX < current_temp then
      create_result s TemperatureAlertType.OUT_OF_RANGE "Temperatura demasiado alta" false
    else
      match check_rapid_change s current_temp now with
      | (s1, some v) => (s1, v)
      | (s1, none) =>
        match check_gradual_change s1 current_temp now with
        | (s2, some v) => (s2, v)
        | (s2, none) =>
          if alert_active s2 then
            match check_recovery s2 temp_change with
            | (s3, some v) => (s3, v)
            | (s3, none) =>
              create_result
                { s3 with consecutive_increases := 0, consecutive_decreases := 0 }
                TemperatureAlertType.NONE "Temperatura normal" false
          else
            create_result
              { s2 with consecutive_increases := 0, consecutive_decreases := 0 }
              TemperatureAlertType.NONE "Temperatura normal" false

/-- `add_reading`: append the reading (`now` is the clock value the method
reads), calibrate while fewer than 5 readings are buffered, else update the
baseline and analyze the pattern. -/
def add_reading (s : AnalyzerState) (temperature now : ℚ) :
    AnalyzerState × Verdict :=
  let s0 : AnalyzerState :=
    { s with readings := deque_append s.readings ⟨temperature, now⟩ }
  if s0.readings.length < 5 then
    create_result (update_baseline s0) TemperatureAlertType.NONE "Calibrando sistema" false
  else
    analyze_pattern (update_baseline s0) temperature now

/-! ### `src/utils/time_utils.py`
Wall-clock instants for the persistence predicate are integer seconds counted
from some midnight; `datetime.minute` and `datetime.second` become arithmetic
on that count. -/

/-- `now.minute` for an instant given in seconds. -/
def minute_of_hour (t : ℤ) : ℤ := (t / 60) % 60

/-- `now.second` for an instant given in seconds. -/
def second_of_minute (t : ℤ) : ℤ := t % 60

/-- `is_on_the_hour` evaluated at `now`: minute 00 and a 5-second window. -/
def is_on_the_hour (now : ℤ) : Bool :=
  decide (minute_of_hour now = 0) && decide (second_of_minute now < 5)

/-- `should_save_reading(last_save_time)` evaluated at `now`. -/
def should_save_reading (last_save_time : Option ℤ) (now : ℤ) : Bool :=
  if !is_on_the_hour now then false
  else
    match last_save_time with
    | none => true
    | some last =>
      let time_diff := now - last
      decide (3540 ≤ time_diff)

/-! ### `src/services/heartbeat_monitor.py` -/

/-- The mutable fields of `HeartbeatMonitor`; `timeout_seconds` is read from
the configuration at construction. -/
structure HeartbeatState where
  last_heartbeat_time : Option ℚ
  is_online : Bool
  timeout_seconds : ℚ
deriving DecidableEq, Repr

/-- `HeartbeatMonitor.__init__`. -/
def initial_heartbeat : HeartbeatState :=
  { last_heartbeat_time := none, is_online := false,
    timeout_seconds := HEARTBEAT_TIMEOUT }

/-- `register_heartbeat`: record `now`, go online; the returned flag is whether
the edge-triggered `device_connected` signal fired. -/
def register_heartbeat (s : HeartbeatState) (now : ℚ) : HeartbeatState × Bool :=
  let was_offline := !s.is_online
  ({ s with last_heartbeat_time := some now, is_online := true }, was_offline)

/-- `_check_timeout`: a no-op before the first heartbeat; otherwise go offline
when strictly more than `timeout_seconds` elapsed while online.  The returned
flag is whether the `device_disconnected` signal fired. -/
def check_timeout (s : HeartbeatState) (now : ℚ) : HeartbeatState × Bool :=
  match s.last_heartbeat_time with
  | none => (s, false)
  | some last =>
    let elapsed_seconds := now - last
    if s.timeout_seconds < elapsed_seconds ∧ s.is_online = true then
      ({ s with is_online := false }, true)
    else (s, false)

/-- A run of periodic `_check_timeout` ticks; returns the final state and how
many `device_disconnected` signals were emitted. -/
def check_timeout_run (s : HeartbeatState) (times : List ℚ) : HeartbeatState × Nat :=
  match times with
  | [] => (s, 0)
  | t :: ts =>
    let step := check_timeout s t
    let rest := check_timeout_run step.1 ts
    (rest.1, (if step.2 then 1 else 0) + rest.2)

/-! ### `src/services/data_manager.py` -/

/-- `process_sensor_data`, restricted to the analyzer update and the
alert-emission decision: the `temperature_alert` signal is emitted exactly when
`analysis['alert_type'].value != 'none'`.  Returns the new analyzer state, the
verdict, and whether the signal fired. -/
def process_sensor_data (s : AnalyzerState) (temperature now : ℚ) :
    AnalyzerState × Verdict × Bool :=
  let analysis := add_reading s temperature now
  (analysis.1, analysis.2, decide (analysis.2.alert_type ≠ TemperatureAlertType.NONE))

/-- A run of `process_sensor_data` over a list of `(temperature, now)` inputs,
collecting each verdict with its emission flag. -/
def process_run (s : AnalyzerState) (inputs : List (ℚ × ℚ)) :
    AnalyzerState × List (Verdict × Bool) :=
  match inputs with
  | [] => (s, [])
  | (temp, t) :: rest =>
    let step := process_sensor_data s temp t
    let tail := process_run step.1 rest
    (tail.1, (step.2.1, step.2.2) :: tail.2)

/-- Outcome of `db_manager.save_temperature_reading` as seen by
`_save_to_database`: a truthy saved record, a falsy `None`, or an exception
propagating out of the call. -/
inductive SaveOutcome where
  | ok (temperature recorded_at : ℚ)
  | dbNone
  | raised
deriving DecidableEq, Repr

/-- The save-tracking fields of `DataManager`. -/
structure ManagerState where
  last_save_time : Option ℤ
  total_readings_saved : Nat
deriving DecidableEq, Repr

/-- `_save_to_database`: on a truthy record, advance `last_save_time` and
`total_readings_saved` and emit `data_saved_to_db`; on a falsy record or an
exception, only log.  The returned flag is whether the signal fired. -/
def save_to_database (s : ManagerState) (now : ℤ) (outcome : SaveOutcome) :
    ManagerState × Bool :=
  match outcome with
  | SaveOutcome.ok _ _ =>
    ({ last_save_time := some now,
       total_readings_saved := s.total_readings_saved + 1 }, true)
  | SaveOutcome.dbNone => (s, false)
  | SaveOutcome.raised => (s, false)

/-- The head temperature of a reading list (`old_readings[0].temperature`),
defaulting to 0 on the empty list, which every caller rules out. -/
def head_temp (xs : List TemperatureReading) : ℚ :=
  match xs with
  | [] => 0
  | r :: _ => r.temperature

/-! ### Frame lemmas for the analyzer steps -/

theorem create_result_fst (s : AnalyzerState) (k : TemperatureAlertType)
    (msg : String) (b : Bool) :
    (create_result s k msg b).1 = { s with last_alert := some k } := rfl

theorem create_result_alert_type (s : AnalyzerState) (k : TemperatureAlertType)
    (msg : String) (b : Bool) :
    (create_result s k msg b).2.alert_type = k := rfl

theorem create_result_is_recovering (s : AnalyzerState) (k : TemperatureAlertType)
    (msg : String) (b : Bool) :
    (create_result s k msg b).2.is_recovering = b := rfl

theorem update_baseline_frame (s : AnalyzerState) :
    (update_baseline s).readings = s.readings ∧
    (update_baseline s).last_alert = s.last_alert ∧
    (update_baseline s).consecutive_increases = s.consecutive_increases ∧
    (update_baseline s).consecutive_decreases = s.consecutive_decreases := by
  unfold update_baseline
  split
  · split <;> exact ⟨rfl, rfl, rfl, rfl⟩
  · split <;> exact ⟨rfl, rfl, rfl, rfl⟩

theorem update_consecutive_frame (s : AnalyzerState) (c : ℚ) :
    (update_consecutive s c).readings = s.readings ∧
    (update_consecutive s c).last_alert = s.last_alert ∧
    (update_consecutive s c).baseline_temp = s.baseline_temp := by
  unfold update_consecutive
  split
  · split
    · split
      · exact ⟨rfl, rfl, rfl⟩
      · split <;> exact ⟨rfl, rfl, rfl⟩
    · exact ⟨rfl, rfl, rfl⟩
  · exact ⟨rfl, rfl, rfl⟩

theorem check_rapid_change_none (s : AnalyzerState) (c n : ℚ) (s' : AnalyzerState)
    (h : check_rapid_change s c n = (s', none)) : s' = s := by
  simp only [check_rapid_change] at h
  split at h
  · exact (Prod.mk.injEq .. ▸ h).1.symm
  · split at h
    · exact (Prod.mk.injEq .. ▸ h).1.symm
    · split at h
      · simp at h
      · exact (Prod.mk.injEq .. ▸ h).1.symm

theorem check_rapid_change_some (s : AnalyzerState) (c n : ℚ) (s' : AnalyzerState)
    (v : Verdict) (h : check_rapid_change s c n = (s', some v)) :
    v.alert_type = TemperatureAlertType.DOOR_OPENING ∧
    s'.last_alert = some TemperatureAlertType.DOOR_OPENING ∧
    s'.consecutive_increases = s.consecutive_increases ∧
    s'.consecutive_decreases = s.consecutive_decreases ∧
    s'.baseline_temp = s.baseline_temp ∧
    s'.readings = s.readings := by
  simp only [check_rapid_change] at h
  split at h
  · simp at h
  · split at h
    · simp at h
    · split at h
      · rw [Prod.mk.injEq] at h
        obtain ⟨h1, h2⟩ := h
        cases h2
        subst h1
        refine ⟨rfl, rfl, ?_⟩
        split <;> exact ⟨rfl, rfl, rfl, rfl⟩
      · simp at h

theorem check_gradual_change_none (s : AnalyzerState) (c n : ℚ) (s' : AnalyzerState)
    (h : check_gradual_change s c n = (s', none)) : s' = update_consecutive s c := by
  simp only [check_gradual_change] at h
  split at h
  · exact (Prod.mk.injEq .. ▸ h).1.symm
  · split at h
    · exact (Prod.mk.injEq .. ▸ h).1.symm
    · split at h
      · simp at h
      · split at h
        · simp at h
        · exact (Prod.mk.injEq .. ▸ h).1.symm

theorem check_gradual_change_some (s : AnalyzerState) (c n : ℚ) (s' : AnalyzerState)
    (v : Verdict) (h : check_gradual_change s c n = (s', some v)) :
    (v.alert_type = TemperatureAlertType.CRITICAL_INCREASE ∨
      v.alert_type = TemperatureAlertType.CRITICAL_DECREASE) ∧
    s'.last_alert = some v.alert_type ∧
    s'.consecutive_increases = (update_consecutive s c).consecutive_increases ∧
    s'.consecutive_decreases = (update_consecutive s c).consecutive_decreases ∧
    s'.baseline_temp = (update_consecutive s c).baseline_temp ∧
    s'.readings = (update_consecutive s c).readings := by
  simp only [check_gradual_change] at h
  split at h
  · simp at h
  · split at h
    · simp at h
    · split at h
      · rw [Prod.mk.injEq] at h
        obtain ⟨h1, h2⟩ := h
        cases h2
        subst h1
        refine ⟨Or.inl rfl, rfl, ?_⟩
        split <;> exact ⟨rfl, rfl, rfl, rfl⟩
      · split at h
        · rw [Prod.mk.injEq] at h
          obtain ⟨h1, h2⟩ := h
          cases h2
          subst h1
          refine ⟨Or.inr rfl, rfl, ?_⟩
          split <;> exact ⟨rfl, rfl, rfl, rfl⟩
        · simp at h

theorem check_gradual_change_fire_inc (s : AnalyzerState) (c n : ℚ)
    (s' : AnalyzerState) (v : Verdict)
    (h : check_gradual_change s c n = (s', some v))
    (hv : v.alert_type = TemperatureAlertType.CRITICAL_INCREASE) :
    10 ≤ ((update_consecutive s c).readings.filter
      (fun r => decide (n - 600 ≤ r.timestamp))).length ∧
    TEMP_ALERT_SLOW_INCREASE <
      c - head_temp ((update_consecutive s c).readings.filter
        (fun r => decide (n - 600 ≤ r.timestamp))) ∧
    5 ≤ (update_consecutive s c).consecutive_increases := by
  simp only [check_gradual_change] at h
  split at h
  · simp at h
  · rename_i hlen
    split at h
    · simp at h
    · rename_i oldest rest hold
      split at h
      · rename_i hcond
        rw [Prod.mk.injEq] at h
        obtain ⟨h1, h2⟩ := h
        cases h2
        rw [hold] at hlen
        rw [hold]
        refine ⟨by omega, ?_, hcond.2⟩
        simpa [head_temp] using hcond.1
      · split at h
        · rw [Prod.mk.injEq] at h
          obtain ⟨h1, h2⟩ := h
          cases h2
          simp [create_result] at hv
        · simp at h

theorem check_gradual_change_fire_dec (s : AnalyzerState) (c n : ℚ)
    (s' : AnalyzerState) (v : Verdict)
    (h : check_gradual_change s c n = (s', some v))
    (hv : v.alert_type = TemperatureAlertType.CRITICAL_DECREASE) :
    10 ≤ ((update_consecutive s c).readings.filter
      (fun r => decide (n - 600 ≤ r.timestamp))).length ∧
    c - head_temp ((update_consecutive s c).readings.filter
      (fun r => decide (n - 600 ≤ r.timestamp))) < -TEMP_ALERT_SLOW_INCREASE ∧
    5 ≤ (update_consecutive s c).consecutive_decreases := by
  simp only [check_gradual_change] at h
  split at h
  · simp at h
  · rename_i hlen
    split at h
    · simp at h
    · rename_i oldest rest hold
      split at h
      · rw [Prod.mk.injEq] at h
        obtain ⟨h1, h2⟩ := h
        cases h2
        simp [create_result] at hv
      · split at h
        · rename_i hcond
          rw [Prod.mk.injEq] at h
          obtain ⟨h1, h2⟩ := h
          cases h2
          rw [hold] at hlen
          rw [hold]
          refine ⟨by omega, ?_, hcond.2⟩
          simpa [head_temp] using hcond.1
        · simp at h

theorem check_recovery_none (s : AnalyzerState) (tc : ℚ) (s' : AnalyzerState)
    (h : check_recovery s tc = (s', none)) :
    s' = s ∧
    ¬(s.last_alert = some TemperatureAlertType.DOOR_OPENING ∧ |tc| < 1 / 2) ∧
    ¬((s.last_alert = some TemperatureAlertType.CRITICAL_INCREASE ∨
        s.last_alert = some TemperatureAlertType.CRITICAL_DECREASE) ∧ |tc| < 1) := by
  simp only [check_recovery] at h
  split at h
  · simp at h
  · split at h
    · simp at h
    · rename_i h1 h2
      exact ⟨(Prod.mk.injEq .. ▸ h).1.symm, h1, h2⟩

theorem check_recovery_some (s : AnalyzerState) (tc : ℚ) (s' : AnalyzerState)
    (v : Verdict) (h : check_recovery s tc = (s', some v)) :
    v.alert_type = TemperatureAlertType.NONE ∧
    v.is_recovering = true ∧
    s'.last_alert = some TemperatureAlertType.NONE ∧
    ((s.last_alert = some TemperatureAlertType.DOOR_OPENING ∧ |tc| < 1 / 2 ∧
        s'.consecutive_increases = 0 ∧
        s'.consecutive_decreases = s.consecutive_decreases) ∨
      ((s.last_alert = some TemperatureAlertType.CRITICAL_INCREASE ∨
          s.last_alert = some TemperatureAlertType.CRITICAL_DECREASE) ∧ |tc| < 1 ∧
        s'.consecutive_increases = 0 ∧ s'.consecutive_decreases = 0)) ∧
    s'.baseline_temp = s.baseline_temp ∧
    s'.readings = s.readings := by
  simp only [check_recovery] at h
  split at h
  · rename_i hc
    rw [Prod.mk.injEq] at h
    obtain ⟨h1, h2⟩ := h
    cases h2
    subst h1
    exact ⟨rfl, rfl, rfl, Or.inl ⟨hc.1, hc.2, rfl, rfl⟩, rfl, rfl⟩
  · split at h
    · rename_i hc
      rw [Prod.mk.injEq] at h
      obtain ⟨h1, h2⟩ := h
      cases h2
      subst h1
      exact ⟨rfl, rfl, rfl, Or.inr ⟨hc.1, hc.2, rfl, rfl⟩, rfl, rfl⟩
    · simp at h

theorem check_recovery_fires (s : AnalyzerState) (tc : ℚ)
    (h : (s.last_alert = some TemperatureAlertType.DOOR_OPENING ∧ |tc| < 1 / 2) ∨
      ((s.last_alert = some TemperatureAlertType.CRITICAL_INCREASE ∨
        s.last_alert = some TemperatureAlertType.CRITICAL_DECREASE) ∧ |tc| < 1)) :
    (check_recovery s tc).2.isSome = true := by
  simp only [check_recovery]
  split
  · rfl
  · split
    · rfl
    · rename_i h1 h2
      rcases h with h | h
      · exact absurd h h1
      · exact absurd h h2

/-- Every branch of `_analyze_pattern` returns through `_create_result`, which
records the reported kind in `self.last_alert`. -/
theorem analyze_pattern_last_alert (s : AnalyzerState) (c n : ℚ) :
    (analyze_pattern s c n).1.last_alert = some ((analyze_pattern s c n).2.alert_type) := by
  simp only [analyze_pattern]
  split
  · rfl
  · split
    · rfl
    · split
      · rfl
      · split
        · rename_i s1 v heq
          obtain ⟨hv, hla, -⟩ := check_rapid_change_some _ _ _ _ _ heq
          rw [hv, hla]
        · rename_i s1 heq1
          split
          · rename_i s2 v heq
            obtain ⟨-, hla, -⟩ := check_gradual_change_some _ _ _ _ _ heq
            exact hla
          · split
            · split
              · rename_i s3 v heq
                obtain ⟨hv, -, hla, -⟩ := check_recovery_some _ _ _ _ heq
                rw [hv, hla]
              · rfl
            · rfl

/-- `_analyze_pattern` never writes `baseline_temp` or the readings buffer. -/
theorem analyze_pattern_frame (s : AnalyzerState) (c n : ℚ) (s' : AnalyzerState)
    (v : Verdict) (hE : analyze_pattern s c n = (s', v)) :
    s'.baseline_temp = s.baseline_temp ∧ s'.readings = s.readings := by
  simp only [analyze_pattern] at hE
  split at hE
  · have hs := congrArg Prod.fst hE
    dsimp only at hs
    rw [← hs]
    exact ⟨rfl, rfl⟩
  · split at hE
    · have hs := congrArg Prod.fst hE
      dsimp only at hs
      rw [← hs]
      exact ⟨rfl, rfl⟩
    · split at hE
      · have hs := congrArg Prod.fst hE
        dsimp only at hs
        rw [← hs]
        exact ⟨rfl, rfl⟩
      · split at hE
        · rename_i s1 v1 heq
          rw [Prod.mk.injEq] at hE
          obtain ⟨h1, h2⟩ := hE
          subst h1
          obtain ⟨-, -, -, -, hb, hr⟩ := check_rapid_change_some _ _ _ _ _ heq
          exact ⟨hb, hr⟩
        · rename_i s1 heq1
          have hs1 : s1 = s := check_rapid_change_none _ _ _ _ heq1
          subst hs1
          split at hE
          · rename_i s2 v1 heq2
            rw [Prod.mk.injEq] at hE
            obtain ⟨h1, h2⟩ := hE
            subst h1
            obtain ⟨-, -, -, -, hb, hr⟩ := check_gradual_change_some _ _ _ _ _ heq2
            obtain ⟨hur, -, hub⟩ := update_consecutive_frame s1 c
            exact ⟨hb.trans hub, hr.trans hur⟩
          · rename_i s2 heq2
            have hs2 : s2 = update_consecutive s1 c := check_gradual_change_none _ _ _ _ heq2
            subst hs2
            obtain ⟨hur, -, hub⟩ := update_consecutive_frame s1 c
            split at hE
            · split at hE
              · rename_i s3 v1 heq3
                rw [Prod.mk.injEq] at hE
                obtain ⟨h1, h2⟩ := hE
                subst h1
                obtain ⟨-, -, -, -, hb, hr⟩ := check_recovery_some _ _ _ _ heq3
                exact ⟨hb.trans hub, hr.trans hur⟩
              · rename_i s3 heq3
                obtain ⟨hs3, -, -⟩ := check_recovery_none _ _ _ heq3
                subst hs3
                have hs := congrArg Prod.fst hE
                dsimp only at hs
                rw [← hs]
                exact ⟨hub, hur⟩
            · have hs := congrArg Prod.fst hE
              dsimp only at hs
              rw [← hs]
              exact ⟨hub, hur⟩

/-- `add_reading` writes `baseline_temp` only through `_update_baseline`, and
its final readings buffer is the appended deque. -/
theorem add_reading_frame (s : AnalyzerState) (temperature now : ℚ) :
    (add_reading s temperature now).1.baseline_temp =
      (update_baseline
        { s with readings := deque_append s.readings ⟨temperature, now⟩ }).baseline_temp ∧
    (add_reading s temperature now).1.readings =
      deque_append s.readings ⟨temperature, now⟩ := by
  rcases hE : add_reading s temperature now with ⟨s', v⟩
  simp only [add_reading] at hE
  split at hE
  · have hs := congrArg Prod.fst hE
    dsimp only at hs
    rw [← hs]
    have hf := update_baseline_frame
      { s with readings := deque_append s.readings ⟨temperature, now⟩ }
    exact ⟨rfl, hf.1⟩
  · obtain ⟨hb, hr⟩ := analyze_pattern_frame _ _ _ _ _ hE
    have hf := update_baseline_frame
      { s with readings := deque_append s.readings ⟨temperature, now⟩ }
    exact ⟨hb, hr.trans hf.1⟩

/-- When `_analyze_pattern` reports `OUT_OF_RANGE` or `DOOR_OPENING`, it has
returned before `_check_gradual_change` ran, so the consecutive counters of the
input state are untouched. -/
theorem analyze_pattern_early_eq (s : AnalyzerState) (c n : ℚ) (s' : AnalyzerState)
    (v : Verdict) (hE : analyze_pattern s c n = (s', v))
    (h : v.alert_type = TemperatureAlertType.OUT_OF_RANGE ∨
      v.alert_type = TemperatureAlertType.DOOR_OPENING) :
    s'.consecutive_increases = s.consecutive_increases ∧
    s'.consecutive_decreases = s.consecutive_decreases := by
  simp only [analyze_pattern] at hE
  split at hE
  · have hv := congrArg Prod.snd hE
    dsimp only at hv
    rw [← hv] at h
    simp [create_result] at h
  · split at hE
    · have hs := congrArg Prod.fst hE
      dsimp only at hs
      rw [← hs]
      exact ⟨rfl, rfl⟩
    · split at hE
      · have hs := congrArg Prod.fst hE
        dsimp only at hs
        rw [← hs]
        exact ⟨rfl, rfl⟩
      · split at hE
        · rename_i s1 v1 heq
          rw [Prod.mk.injEq] at hE
          obtain ⟨h1, h2⟩ := hE
          subst h1
          obtain ⟨-, -, hci, hcd, -, -⟩ := check_rapid_change_some _ _ _ _ _ heq
          exact ⟨hci, hcd⟩
        · rename_i s1 heq1
          have hs1 : s1 = s := check_rapid_change_none _ _ _ _ heq1
          subst hs1
          split at hE
          · rename_i s2 v1 heq2
            rw [Prod.mk.injEq] at hE
            obtain ⟨h1, h2⟩ := hE
            subst h1
            subst h2
            obtain ⟨hk, -⟩ := check_gradual_change_some _ _ _ _ _ heq2
            rcases hk with hk | hk <;> rw [hk] at h <;> simp at h
          · rename_i s2 heq2
            split at hE
            · split at hE
              · rename_i s3 v1 heq3
                rw [Prod.mk.injEq] at hE
                obtain ⟨h1, h2⟩ := hE
                subst h1
                subst h2
                obtain ⟨hk, -⟩ := check_recovery_some _ _ _ _ heq3
                rw [hk] at h
                simp at h
              · have hv := congrArg Prod.snd hE
                dsimp only at hv
                rw [← hv] at h
                simp [create_result] at h
            · have hv := congrArg Prod.snd hE
              dsimp only at hv
              rw [← hv] at h
              simp [create_result] at h

/-! ### Claim theorems -/

/-- C9: after every call to `add_reading`, the stored `last_alert` equals the
`alert_type` of the verdict just returned: every result path goes through
`_create_result`, which assigns `last_alert` to the reported kind. -/
theorem last_alert_matches_verdict (s : AnalyzerState) (temperature now : ℚ) :
    (add_reading s temperature now).1.last_alert =
      some ((add_reading s temperature now).2.alert_type) := by
  simp only [add_reading]
  split
  · rfl
  · exact analyze_pattern_last_alert _ _ _

/-- C4: `should_save_reading` is true iff the minute-of-hour is 0, the
second-of-minute is below 5, and either no commit happened yet or at least
3540 seconds passed; checked on the four concrete cases `10:00:02` (no prior
commit), `10:00:06`, `10:30:00` and `11:00:01` (prior commit `10:00:02`). -/
theorem should_save_reading_spec :
    (∀ (last : Option ℤ) (now : ℤ),
      should_save_reading last now = true ↔
        (minute_of_hour now = 0 ∧ second_of_minute now < 5 ∧
          (last = none ∨ ∃ l, last = some l ∧ 3540 ≤ now - l))) ∧
    should_save_reading none 36002 = true ∧
    should_save_reading none 36006 = false ∧
    should_save_reading (some 36002) 37800 = false ∧
    should_save_reading (some 36002) 39601 = true := by
  refine ⟨?_, by decide, by decide, by decide, by decide⟩
  intro last now
  simp only [should_save_reading, is_on_the_hour]
  cases last with
  | none =>
    split <;> rename_i h <;>
      simp_all [Bool.not_eq_eq_eq_not, Bool.and_eq_true, decide_eq_true_eq] <;>
      omega
  | some l =>
    split <;> rename_i h <;>
      simp_all [Bool.not_eq_eq_eq_not, Bool.and_eq_true, decide_eq_true_eq] <;>
      omega

/-- C8: `_save_to_database` advances `last_save_time` and
`total_readings_saved` only on a truthy saved record; a falsy result or an
exception leaves the manager state unchanged, so the pending commit stays due
under `should_save_reading` exactly as before.  The last conjunct evaluates a
concrete failed save. -/
theorem save_state_only_on_success :
    (∀ (s : ManagerState) (now : ℤ) (outcome : SaveOutcome),
      (∀ temp rec, outcome ≠ SaveOutcome.ok temp rec) →
        save_to_database s now outcome = (s, false)) ∧
    (∀ (s : ManagerState) (now : ℤ) (temp rec : ℚ),
      (save_to_database s now (SaveOutcome.ok temp rec)).1.last_save_time = some now ∧
      (save_to_database s now (SaveOutcome.ok temp rec)).1.total_readings_saved =
        s.total_readings_saved + 1 ∧
      (save_to_database s now (SaveOutcome.ok temp rec)).2 = true) ∧
    (∀ (s : ManagerState) (now t : ℤ) (outcome : SaveOutcome),
      (∀ temp rec, outcome ≠ SaveOutcome.ok temp rec) →
        should_save_reading (save_to_database s now outcome).1.last_save_time t =
          should_save_reading s.last_save_time t) ∧
    save_to_database { last_save_time := some 36002, total_readings_saved := 7 }
      39600 SaveOutcome.dbNone =
      ({ last_save_time := some 36002, total_readings_saved := 7 }, false) := by
  refine ⟨?_, ?_, ?_, by decide⟩
  · intro s now outcome h
    cases outcome with
    | ok temp rec => exact absurd rfl (h temp rec)
    | dbNone => rfl
    | raised => rfl
  · intro s now temp rec
    exact ⟨rfl, rfl, rfl⟩
  · intro s now t outcome h
    cases outcome with
    | ok temp rec => exact absurd rfl (h temp rec)
    | dbNone => rfl
    | raised => rfl

/-- The analyzer state of `TemperatureAnalyzer` whose buffered readings sum to
zero, so that the freshly computed baseline is exactly `0.0`. -/
def analyzer_zero_baseline : AnalyzerState :=
  { readings := [⟨-2, 0⟩, ⟨-2, 60⟩, ⟨1, 120⟩, ⟨1, 180⟩],
    baseline_temp := none, last_alert := none, alert_start_time := none,
    consecutive_increases := 0, consecutive_decreases := 0 }

/-- C7: at a baseline of exactly `0.0`, `_create_result` reports
`temp_change = 0` and `baseline_temp = None` although the baseline is set and
the current temperature is 2: the truthiness test `if self.baseline_temp`
conflates a zero baseline with an unset one, while the claim (and line 122 of
the source, which tests `is None`) intends `temp_change = current − baseline`
whenever the baseline is set. -/
theorem zero_baseline_temp_change_bug :
    (add_reading analyzer_zero_baseline 2 240).1.baseline_temp = some 0 ∧
    (add_reading analyzer_zero_baseline 2 240).2.current_temp = 2 ∧
    (add_reading analyzer_zero_baseline 2 240).2.temp_change = 0 ∧
    (add_reading analyzer_zero_baseline 2 240).2.baseline_temp = none := by
  decide

/-- C2 (amended): `process_sensor_data` emits the `temperature_alert` signal
exactly when the verdict's kind is not `NONE`, with no de-duplication against
previously emitted kinds: over any run, the emission flags are pointwise
determined by each verdict alone. -/
theorem alert_emission_every_nonnone (s : AnalyzerState) (inputs : List (ℚ × ℚ)) :
    ((process_run s inputs).2).map Prod.snd =
      ((process_run s inputs).2).map
        (fun p => decide (p.1.alert_type ≠ TemperatureAlertType.NONE)) := by
  induction inputs generalizing s with
  | nil => rfl
  | cons x rest ih =>
    obtain ⟨temp, t⟩ := x
    simp only [process_run, process_sensor_data, List.map_cons, List.map]
    exact congrArg _ (ih _)

/-- C2 (counterexample): from a fresh analyzer, six readings of 10 °C produce
`OUT_OF_RANGE` on the 5th and 6th calls, and the engine emits the alert signal
on both — two consecutive readings of the same non-`NONE` kind yield two
emissions. -/
theorem duplicate_alert_emission_cex :
    ((process_run initial_analyzer
        [(10, 0), (10, 60), (10, 120), (10, 180), (10, 240), (10, 300)]).2).map
        (fun p => (p.1.alert_type, p.2)) =
      [(TemperatureAlertType.NONE, false), (TemperatureAlertType.NONE, false),
       (TemperatureAlertType.NONE, false), (TemperatureAlertType.NONE, false),
       (TemperatureAlertType.OUT_OF_RANGE, true),
       (TemperatureAlertType.OUT_OF_RANGE, true)] := by
  decide

/-- While the monitor is offline, a run of `_check_timeout` ticks changes
nothing and emits nothing: with no `register_heartbeat`, offline is latched. -/
theorem check_timeout_run_offline (s : HeartbeatState) (ts : List ℚ)
    (h : s.is_online = false) : check_timeout_run s ts = (s, 0) := by
  induction ts with
  | nil => rfl
  | cons t ts ih =>
    have hstep : check_timeout s t = (s, false) := by
      simp only [check_timeout]
      cases hl : s.last_heartbeat_time with
      | none => rfl
      | some last =>
        dsimp only
        rw [if_neg]
        intro hc
        rw [h] at hc
        exact Bool.false_ne_true hc.2
    simp only [check_timeout_run, hstep, ih, Bool.false_eq_true, if_false, Nat.zero_add]

/-- While online with a recorded heartbeat at `t0` and no further heartbeat,
a run of `_check_timeout` ticks emits one disconnect if some tick exceeds the
timeout, and none otherwise. -/
theorem check_timeout_run_online (s : HeartbeatState) (t0 : ℚ) (ts : List ℚ)
    (hon : s.is_online = true) (hl : s.last_heartbeat_time = some t0) :
    (check_timeout_run s ts).2 =
      if ts.any (fun t => decide (s.timeout_seconds < t - t0)) then 1 else 0 := by
  induction ts with
  | nil => rfl
  | cons t ts ih =>
    by_cases hfire : s.timeout_seconds < t - t0
    · have hstep : check_timeout s t = ({ s with is_online := false }, true) := by
        simp only [check_timeout, hl]
        rw [if_pos ⟨hfire, hon⟩]
      have hrest := check_timeout_run_offline { s with is_online := false } ts rfl
      simp [check_timeout_run, hstep, hrest, List.any_cons, hfire]
    · have hstep : check_timeout s t = (s, false) := by
        simp only [check_timeout, hl]
        rw [if_neg]
        intro hc
        exact hfire hc.1
      simp [check_timeout_run, hstep, ih, List.any_cons, hfire]

/-- C5: `_check_timeout` is a no-op before any heartbeat; otherwise it goes
offline and emits `device_disconnected` exactly when strictly more than the
timeout elapsed while online (elapsed time equal to the timeout does not
disconnect), and one heartbeat followed by silence yields exactly one
disconnect over any run of checks. -/
theorem check_timeout_spec :
    (∀ (s : HeartbeatState) (now : ℚ), s.last_heartbeat_time = none →
      check_timeout s now = (s, false)) ∧
    (∀ (s : HeartbeatState) (t0 now : ℚ), s.last_heartbeat_time = some t0 →
      ((check_timeout s now).2 = true ↔
        (s.timeout_seconds < now - t0 ∧ s.is_online = true))) ∧
    (∀ (s : HeartbeatState) (now : ℚ), (check_timeout s now).2 = true →
      (check_timeout s now).1.is_online = false) ∧
    (∀ (s : HeartbeatState) (now : ℚ), (check_timeout s now).2 = false →
      (check_timeout s now).1 = s) ∧
    (∀ (s : HeartbeatState) (t0 : ℚ), s.last_heartbeat_time = some t0 →
      (check_timeout s (t0 + s.timeout_seconds)).2 = false) ∧
    (∀ (s : HeartbeatState) (t0 : ℚ) (ts : List ℚ),
      (check_timeout_run (register_heartbeat s t0).1 ts).2 =
        if ts.any (fun t => decide (s.timeout_seconds < t - t0)) then 1 else 0) := by
  refine ⟨?_, ?_, ?_, ?_, ?_, ?_⟩
  · intro s now h
    simp only [check_timeout, h]
  · intro s t0 now h
    simp only [check_timeout, h]
    split
    · rename_i hc
      simp only [true_iff]
      exact hc
    · rename_i hc
      simp only [Bool.false_eq_true, false_iff]
      exact hc
  · intro s now h
    simp only [check_timeout] at h ⊢
    cases hl : s.last_heartbeat_time with
    | none => rw [hl] at h; exact absurd h (by simp)
    | some t0 =>
      rw [hl] at h
      dsimp only at h ⊢
      split
      · rfl
      · rename_i hc
        rw [if_neg hc] at h
        exact absurd h (by simp)
  · intro s now h
    simp only [check_timeout] at h ⊢
    cases hl : s.last_heartbeat_time with
    | none => rfl
    | some t0 =>
      rw [hl] at h
      dsimp only at h ⊢
      split
      · rename_i hc
        rw [if_pos hc] at h
        exact absurd h (by simp)
      · rfl
  · intro s t0 h
    simp only [check_timeout, h]
    rw [if_neg]
    intro hc
    have := hc.1
    simp only [add_sub_cancel_left] at this
    exact lt_irrefl _ this
  · intro s t0 ts
    exact check_timeout_run_online _ t0 ts rfl rfl

theorem deque_append_length (xs : List TemperatureReading) (r : TemperatureReading) :
    (deque_append xs r).length = min (xs.length + 1) READINGS_MAXLEN := by
  simp only [deque_append]
  split <;> rename_i h <;>
    simp_all [List.length_append, READINGS_MAXLEN] <;> omega

/-- C10: on every call whose verdict is `OUT_OF_RANGE` or `DOOR_OPENING` (both
returned before `_check_gradual_change` runs), the consecutive counters keep
their values from the previous call. -/
theorem counters_frozen_on_early_return (s : AnalyzerState) (temperature now : ℚ)
    (h : (add_reading s temperature now).2.alert_type =
        TemperatureAlertType.OUT_OF_RANGE ∨
      (add_reading s temperature now).2.alert_type =
        TemperatureAlertType.DOOR_OPENING) :
    (add_reading s temperature now).1.consecutive_increases =
      s.consecutive_increases ∧
    (add_reading s temperature now).1.consecutive_decreases =
      s.consecutive_decreases := by
  rcases hE : add_reading s temperature now with ⟨s', v⟩
  rw [hE] at h
  dsimp only at h ⊢
  simp only [add_reading] at hE
  split at hE
  · have hv := congrArg Prod.snd hE
    dsimp only at hv
    rw [← hv] at h
    simp [create_result] at h
  · have hpe := analyze_pattern_early_eq _ _ _ _ _ hE h
    have hf := update_baseline_frame
      { s with readings := deque_append s.readings ⟨temperature, now⟩ }
    exact ⟨hpe.1.trans hf.2.2.1, hpe.2.trans hf.2.2.2⟩

/-- An analyzer holding four out-of-range readings with nonzero counters. -/
def analyzer_out_of_range : AnalyzerState :=
  { readings := [⟨10, 0⟩, ⟨10, 60⟩, ⟨10, 120⟩, ⟨10, 180⟩],
    baseline_temp := some 10, last_alert := some TemperatureAlertType.NONE,
    alert_start_time := none, consecutive_increases := 3, consecutive_decreases := 2 }

theorem counters_frozen_on_early_return_witness :
    ((add_reading analyzer_out_of_range 10 240).2.alert_type =
        TemperatureAlertType.OUT_OF_RANGE ∨
      (add_reading analyzer_out_of_range 10 240).2.alert_type =
        TemperatureAlertType.DOOR_OPENING) ∧
    (add_reading analyzer_out_of_range 10 240).1.consecutive_increases = 3 ∧
    (add_reading analyzer_out_of_range 10 240).1.consecutive_decreases = 2 :=
  ⟨Or.inl (by decide),
   (counters_frozen_on_early_return analyzer_out_of_range 10 240 (Or.inl (by decide))).1,
   (counters_frozen_on_early_return analyzer_out_of_range 10 240 (Or.inl (by decide))).2⟩

/-- An analyzer with an active `OUT_OF_RANGE` alert and only five buffered
readings. -/
def analyzer_alert_under20 : AnalyzerState :=
  { readings := [⟨10, 0⟩, ⟨10, 60⟩, ⟨10, 120⟩, ⟨10, 180⟩, ⟨9, 240⟩],
    baseline_temp := some (49 / 5), last_alert := some TemperatureAlertType.OUT_OF_RANGE,
    alert_start_time := some 240, consecutive_increases := 0, consecutive_decreases := 0 }

/-- C1 (counterexample): with an active `OUT_OF_RANGE` alert and fewer than 20
buffered readings, one more `add_reading` call moves `baseline_temp` from
`49/5` to `59/6` even though the alert stays active (the verdict is again
`OUT_OF_RANGE`): the `< 20` running-mean branch of `_update_baseline` runs
before the active-alert guard. -/
theorem baseline_recomputed_under_alert_cex :
    alert_active analyzer_alert_under20 = true ∧
    analyzer_alert_under20.readings.length < 20 ∧
    analyzer_alert_under20.baseline_temp = some (49 / 5) ∧
    (add_reading analyzer_alert_under20 10 300).1.baseline_temp = some (59 / 6) ∧
    (add_reading analyzer_alert_under20 10 300).2.alert_type =
      TemperatureAlertType.OUT_OF_RANGE := by
  refine ⟨by decide, by decide, by decide, by decide, by decide⟩

/-- C1 (amended): once at least 20 readings are buffered (19 before the call,
20 after the append), a call to `add_reading` during an active alert leaves
`baseline_temp` unchanged; with fewer readings the running mean is still
recomputed on every call. -/
theorem baseline_freeze_amended (s : AnalyzerState) (temperature now : ℚ)
    (h1 : alert_active s = true) (h2 : 19 ≤ s.readings.length) :
    (add_reading s temperature now).1.baseline_temp = s.baseline_temp := by
  have hf := add_reading_frame s temperature now
  rw [hf.1]
  have hlen : ¬ (deque_append s.readings ⟨temperature, now⟩).length < 20 := by
    rw [deque_append_length]
    simp only [READINGS_MAXLEN]
    omega
  have h1' : alert_active
      { s with readings := deque_append s.readings ⟨temperature, now⟩ } = true := h1
  simp only [update_baseline]
  rw [if_neg hlen, if_pos h1']

/-- An analyzer with an active alert and a full 20-reading window. -/
def analyzer_alert_full : AnalyzerState :=
  { readings := (List.range 20).map (fun i => ⟨5, 60 * (i : ℚ)⟩),
    baseline_temp := some 5, last_alert := some TemperatureAlertType.DOOR_OPENING,
    alert_start_time := some 0, consecutive_increases := 0, consecutive_decreases := 0 }

theorem baseline_freeze_amended_witness :
    alert_active analyzer_alert_full = true ∧
    19 ≤ analyzer_alert_full.readings.length ∧
    (add_reading analyzer_alert_full 4 1200).1.baseline_temp =
      analyzer_alert_full.baseline_temp :=
  ⟨by decide, by decide,
   baseline_freeze_amended analyzer_alert_full 4 1200 (by decide) (by decide)⟩

theorem update_consecutive_reset_on_decrease (t : AnalyzerState) (c : ℚ)
    (prev : TemperatureReading) (hprev : t.readings.dropLast.getLast? = some prev)
    (hlt : c < prev.temperature) :
    (update_consecutive t c).consecutive_increases = 0 ∧
    (update_consecutive t c).consecutive_decreases = t.consecutive_decreases + 1 := by
  have hlen2 : 2 ≤ t.readings.length := by
    have hne : t.readings.dropLast ≠ [] := by
      intro he
      rw [he] at hprev
      simp at hprev
    have hpos := List.length_pos.mpr hne
    rw [List.length_dropLast] at hpos
    omega
  have hnotgt : ¬ prev.temperature < c := not_lt.mpr (le_of_lt hlt)
  simp only [update_consecutive, if_pos hlen2, hprev]
  rw [if_neg hnotgt, if_pos hlt]
  exact ⟨rfl, rfl⟩

theorem update_consecutive_reset_on_increase (t : AnalyzerState) (c : ℚ)
    (prev : TemperatureReading) (hprev : t.readings.dropLast.getLast? = some prev)
    (hgt : prev.temperature < c) :
    (update_consecutive t c).consecutive_decreases = 0 ∧
    (update_consecutive t c).consecutive_increases = t.consecutive_increases + 1 := by
  have hlen2 : 2 ≤ t.readings.length := by
    have hne : t.readings.dropLast ≠ [] := by
      intro he
      rw [he] at hprev
      simp at hprev
    have hpos := List.length_pos.mpr hne
    rw [List.length_dropLast] at hpos
    omega
  simp only [update_consecutive, if_pos hlen2, hprev]
  rw [if_pos hgt]
  exact ⟨rfl, rfl⟩

/-- When `_analyze_pattern` reports `CRITICAL_INCREASE`, the 10-minute window
held at least 10 samples, the delta over it strictly exceeded the slow-increase
threshold, and the (just updated) consecutive-increase count is at least 5. -/
theorem analyze_pattern_inc_eq (s : AnalyzerState) (c n : ℚ) (s' : AnalyzerState)
    (v : Verdict) (hE : analyze_pattern s c n = (s', v))
    (h : v.alert_type = TemperatureAlertType.CRITICAL_INCREASE) :
    10 ≤ (s.readings.filter (fun r => decide (n - 600 ≤ r.timestamp))).length ∧
    TEMP_ALERT_SLOW_INCREASE <
      c - head_temp (s.readings.filter (fun r => decide (n - 600 ≤ r.timestamp))) ∧
    5 ≤ s'.consecutive_increases ∧
    s'.consecutive_increases = (update_consecutive s c).consecutive_increases := by
  simp only [analyze_pattern] at hE
  split at hE
  · have hv := congrArg Prod.snd hE
    dsimp only at hv
    rw [← hv] at h
    simp [create_result] at h
  · split at hE
    · have hv := congrArg Prod.snd hE
      dsimp only at hv
      rw [← hv] at h
      simp [create_result] at h
    · split at hE
      · have hv := congrArg Prod.snd hE
        dsimp only at hv
        rw [← hv] at h
        simp [create_result] at h
      · split at hE
        · rename_i s1 v1 heq
          rw [Prod.mk.injEq] at hE
          obtain ⟨h1, h2⟩ := hE
          subst h1
          subst h2
          obtain ⟨hk, -⟩ := check_rapid_change_some _ _ _ _ _ heq
          rw [hk] at h
          simp at h
        · rename_i s1 heq1
          have hs1 : s1 = s := check_rapid_change_none _ _ _ _ heq1
          subst hs1
          split at hE
          · rename_i s2 v1 heq2
            rw [Prod.mk.injEq] at hE
            obtain ⟨h1, h2⟩ := hE
            subst h1
            subst h2
            have hfire := check_gradual_change_fire_inc _ _ _ _ _ heq2 h
            obtain ⟨-, -, hci, -, -, -⟩ := check_gradual_change_some _ _ _ _ _ heq2
            obtain ⟨hur, -, -⟩ := update_consecutive_frame s1 c
            rw [hur] at hfire
            exact ⟨hfire.1, hfire.2.1, by rw [hci]; exact hfire.2.2, hci⟩
          · rename_i s2 heq2
            split at hE
            · split at hE
              · rename_i s3 v1 heq3
                rw [Prod.mk.injEq] at hE
                obtain ⟨h1, h2⟩ := hE
                subst h1
                subst h2
                obtain ⟨hk, -⟩ := check_recovery_some _ _ _ _ heq3
                rw [hk] at h
                simp at h
              · have hv := congrArg Prod.snd hE
                dsimp only at hv
                rw [← hv] at h
                simp [create_result] at h
            · have hv := congrArg Prod.snd hE
              dsimp only at hv
              rw [← hv] at h
              simp [create_result] at h

/-- Symmetric extraction for `CRITICAL_DECREASE`. -/
theorem analyze_pattern_dec_eq (s : AnalyzerState) (c n : ℚ) (s' : AnalyzerState)
    (v : Verdict) (hE : analyze_pattern s c n = (s', v))
    (h : v.alert_type = TemperatureAlertType.CRITICAL_DECREASE) :
    10 ≤ (s.readings.filter (fun r => decide (n - 600 ≤ r.timestamp))).length ∧
    c - head_temp (s.readings.filter (fun r => decide (n - 600 ≤ r.timestamp))) <
      -TEMP_ALERT_SLOW_INCREASE ∧
    5 ≤ s'.consecutive_decreases ∧
    s'.consecutive_decreases = (update_consecutive s c).consecutive_decreases := by
  simp only [analyze_pattern] at hE
  split at hE
  · have hv := congrArg Prod.snd hE
    dsimp only at hv
    rw [← hv] at h
    simp [create_result] at h
  · split at hE
    · have hv := congrArg Prod.snd hE
      dsimp only at hv
      rw [← hv] at h
      simp [create_result] at h
    · split at hE
      · have hv := congrArg Prod.snd hE
        dsimp only at hv
        rw [← hv] at h
        simp [create_result] at h
      · split at hE
        · rename_i s1 v1 heq
          rw [Prod.mk.injEq] at hE
          obtain ⟨h1, h2⟩ := hE
          subst h1
          subst h2
          obtain ⟨hk, -⟩ := check_rapid_change_some _ _ _ _ _ heq
          rw [hk] at h
          simp at h
        · rename_i s1 heq1
          have hs1 : s1 = s := check_rapid_change_none _ _ _ _ heq1
          subst hs1
          split at hE
          · rename_i s2 v1 heq2
            rw [Prod.mk.injEq] at hE
            obtain ⟨h1, h2⟩ := hE
            subst h1
            subst h2
            have hfire := check_gradual_change_fire_dec _ _ _ _ _ heq2 h
            obtain ⟨-, -, -, hcd, -, -⟩ := check_gradual_change_some _ _ _ _ _ heq2
            obtain ⟨hur, -, -⟩ := update_consecutive_frame s1 c
            rw [hur] at hfire
            exact ⟨hfire.1, hfire.2.1, by rw [hcd]; exact hfire.2.2, hcd⟩
          · rename_i s2 heq2
            split at hE
            · split at hE
              · rename_i s3 v1 heq3
                rw [Prod.mk.injEq] at hE
                obtain ⟨h1, h2⟩ := hE
                subst h1
                subst h2
                obtain ⟨hk, -⟩ := check_recovery_some _ _ _ _ heq3
                rw [hk] at h
                simp at h
              · have hv := congrArg Prod.snd hE
                dsimp only at hv
                rw [← hv] at h
                simp [create_result] at h
            · have hv := congrArg Prod.snd hE
              dsimp only at hv
              rw [← hv] at h
              simp [create_result] at h

/-- C3: `CRITICAL_INCREASE` is reported only when the 10-minute window (at
least 10 samples) shows a delta strictly above the slow-increase threshold AND
the consecutive-increase count is at least 5; a strict decrease against the
immediately preceding sample resets `consecutive_increases` to 0 (so an
oscillating path cannot fire, and on a firing call the last step was not a
decrease); symmetrically for `CRITICAL_DECREASE` with
`consecutive_decreases`. -/
theorem gradual_change_requires_persistence (s : AnalyzerState)
    (temperature now : ℚ) :
    ((add_reading s temperature now).2.alert_type =
        TemperatureAlertType.CRITICAL_INCREASE →
      10 ≤ ((deque_append s.readings ⟨temperature, now⟩).filter
        (fun r => decide (now - 600 ≤ r.timestamp))).length ∧
      TEMP_ALERT_SLOW_INCREASE < temperature -
        head_temp ((deque_append s.readings ⟨temperature, now⟩).filter
          (fun r => decide (now - 600 ≤ r.timestamp))) ∧
      5 ≤ (add_reading s temperature now).1.consecutive_increases ∧
      (∀ prev : TemperatureReading,
        (deque_append s.readings ⟨temperature, now⟩).dropLast.getLast? = some prev →
        ¬ temperature < prev.temperature)) ∧
    ((add_reading s temperature now).2.alert_type =
        TemperatureAlertType.CRITICAL_DECREASE →
      10 ≤ ((deque_append s.readings ⟨temperature, now⟩).filter
        (fun r => decide (now - 600 ≤ r.timestamp))).length ∧
      temperature - head_temp ((deque_append s.readings ⟨temperature, now⟩).filter
        (fun r => decide (now - 600 ≤ r.timestamp))) < -TEMP_ALERT_SLOW_INCREASE ∧
      5 ≤ (add_reading s temperature now).1.consecutive_decreases ∧
      (∀ prev : TemperatureReading,
        (deque_append s.readings ⟨temperature, now⟩).dropLast.getLast? = some prev →
        ¬ prev.temperature < temperature)) ∧
    (∀ (t : AnalyzerState) (c : ℚ) (prev : TemperatureReading),
      t.readings.dropLast.getLast? = some prev → c < prev.temperature →
      (update_consecutive t c).consecutive_increases = 0) ∧
    (∀ (t : AnalyzerState) (c : ℚ) (prev : TemperatureReading),
      t.readings.dropLast.getLast? = some prev → prev.temperature < c →
      (update_consecutive t c).consecutive_decreases = 0) := by
  refine ⟨?_, ?_, ?_, ?_⟩
  · intro h
    rcases hE : add_reading s temperature now with ⟨s', v⟩
    rw [hE] at h
    dsimp only at h ⊢
    simp only [add_reading] at hE
    split at hE
    · have hv := congrArg Prod.snd hE
      dsimp only at hv
      rw [← hv] at h
      simp [create_result] at h
    · have hx := analyze_pattern_inc_eq _ _ _ _ _ hE h
      have hf := update_baseline_frame
        { s with readings := deque_append s.readings ⟨temperature, now⟩ }
      rw [hf.1] at hx
      refine ⟨hx.1, hx.2.1, hx.2.2.1, ?_⟩
      intro prev hprev hlt
      have hprev' : (update_baseline
          { s with readings := deque_append s.readings ⟨temperature, now⟩
          }).readings.dropLast.getLast? = some prev := by
        rw [hf.1]
        exact hprev
      have hreset := update_consecutive_reset_on_decrease _ temperature prev hprev' hlt
      have h5 := hx.2.2.1
      rw [hx.2.2.2, hreset.1] at h5
      omega
  · intro h
    rcases hE : add_reading s temperature now with ⟨s', v⟩
    rw [hE] at h
    dsimp only at h ⊢
    simp only [add_reading] at hE
    split at hE
    · have hv := congrArg Prod.snd hE
      dsimp only at hv
      rw [← hv] at h
      simp [create_result] at h
    · have hx := analyze_pattern_dec_eq _ _ _ _ _ hE h
      have hf := update_baseline_frame
        { s with readings := deque_append s.readings ⟨temperature, now⟩ }
      rw [hf.1] at hx
      refine ⟨hx.1, hx.2.1, hx.2.2.1, ?_⟩
      intro prev hprev hgt
      have hprev' : (update_baseline
          { s with readings := deque_append s.readings ⟨temperature, now⟩
          }).readings.dropLast.getLast? = some prev := by
        rw [hf.1]
        exact hprev
      have hreset := update_consecutive_reset_on_increase _ temperature prev hprev' hgt
      have h5 := hx.2.2.1
      rw [hx.2.2.2, hreset.1] at h5
      omega
  · intro t c prev h1 h2
    exact (update_consecutive_reset_on_decrease t c prev h1 h2).1
  · intro t c prev h1 h2
    exact (update_consecutive_reset_on_increase t c prev h1 h2).1

/-- An analyzer with a monotonic warming history and four consecutive
increases already counted. -/
def analyzer_drift : AnalyzerState :=
  { readings := (List.range 10).map (fun i => ⟨3 / 20 * (i : ℚ), 60 * (i : ℚ)⟩),
    baseline_temp := some 1, last_alert := some TemperatureAlertType.NONE,
    alert_start_time := none, consecutive_increases := 4, consecutive_decreases := 0 }

theorem gradual_change_requires_persistence_witness :
    (add_reading analyzer_drift (9 / 5) 600).2.alert_type =
      TemperatureAlertType.CRITICAL_INCREASE ∧
    10 ≤ ((deque_append analyzer_drift.readings ⟨9 / 5, 600⟩).filter
      (fun r => decide ((600 : ℚ) - 600 ≤ r.timestamp))).length ∧
    5 ≤ (add_reading analyzer_drift (9 / 5) 600).1.consecutive_increases :=
  ⟨by decide,
   ((gradual_change_requires_persistence analyzer_drift (9 / 5) 600).1 (by decide)).1,
   ((gradual_change_requires_persistence analyzer_drift (9 / 5) 600).1
     (by decide)).2.2.1⟩

theorem check_timeout_spec_witness :
    (check_timeout_run (register_heartbeat initial_heartbeat 0).1 [3, 7, 8, 100]).2 = 1 :=
  (check_timeout_spec.2.2.2.2.2 initial_heartbeat 0 [3, 7, 8, 100]).trans (by decide)

theorem alert_active_congr (a b : AnalyzerState) (h : a.last_alert = b.last_alert) :
    alert_active a = alert_active b := by
  unfold alert_active
  rw [h]

/-- On a call with an active alert, a set baseline, and a `NONE` verdict, the
verdict carries `isRecovering` exactly when the recovery thresholds were met;
a `DOOR_OPENING` recovery zeroes `consecutive_increases`, a critical recovery
zeroes both counters. -/
theorem analyze_pattern_recovery_eq (s : AnalyzerState) (c n : ℚ)
    (s' : AnalyzerState) (v : Verdict) (b : ℚ)
    (hE : analyze_pattern s c n = (s', v))
    (hact : alert_active s = true)
    (hb : s.baseline_temp = some b)
    (hv : v.alert_type = TemperatureAlertType.NONE) :
    (v.is_recovering = true ↔
      ((s.last_alert = some TemperatureAlertType.DOOR_OPENING ∧ |c - b| < 1 / 2) ∨
        ((s.last_alert = some TemperatureAlertType.CRITICAL_INCREASE ∨
          s.last_alert = some TemperatureAlertType.CRITICAL_DECREASE) ∧
          |c - b| < 1))) ∧
    (v.is_recovering = true →
      s.last_alert = some TemperatureAlertType.DOOR_OPENING →
      s'.consecutive_increases = 0) ∧
    (v.is_recovering = true →
      (s.last_alert = some TemperatureAlertType.CRITICAL_INCREASE ∨
        s.last_alert = some TemperatureAlertType.CRITICAL_DECREASE) →
      s'.consecutive_increases = 0 ∧ s'.consecutive_decreases = 0) := by
  simp only [analyze_pattern] at hE
  split at hE
  · rename_i hnone
    rw [hb] at hnone
    simp at hnone
  · rename_i baseline hbase
    have hbb : baseline = b := by
      rw [hbase] at hb
      exact Option.some.inj hb
    subst hbb
    split at hE
    · have hve := congrArg Prod.snd hE
      dsimp only at hve
      rw [← hve] at hv
      simp [create_result] at hv
    · split at hE
      · have hve := congrArg Prod.snd hE
        dsimp only at hve
        rw [← hve] at hv
        simp [create_result] at hv
      · split at hE
        · rename_i s1 v1 heq
          rw [Prod.mk.injEq] at hE
          obtain ⟨h1, h2⟩ := hE
          subst h1
          subst h2
          obtain ⟨hk, -⟩ := check_rapid_change_some _ _ _ _ _ heq
          rw [hk] at hv
          simp at hv
        · rename_i s1 heq1
          have hs1 : s1 = s := check_rapid_change_none _ _ _ _ heq1
          subst hs1
          split at hE
          · rename_i s2 v1 heq2
            rw [Prod.mk.injEq] at hE
            obtain ⟨h1, h2⟩ := hE
            subst h1
            subst h2
            obtain ⟨hk, -⟩ := check_gradual_change_some _ _ _ _ _ heq2
            rcases hk with hk | hk <;> rw [hk] at hv <;> simp at hv
          · rename_i s2 heq2
            have hs2 : s2 = update_consecutive s1 c := check_gradual_change_none _ _ _ _ heq2
            subst hs2
            have hla2 : (update_consecutive s1 c).last_alert = s1.last_alert :=
              (update_consecutive_frame s1 c).2.1
            split at hE
            · split at hE
              · rename_i s3 v1 heq3
                rw [Prod.mk.injEq] at hE
                obtain ⟨h1, h2⟩ := hE
                subst h1
                subst h2
                obtain ⟨-, hr, -, hdisj, -, -⟩ := check_recovery_some _ _ _ _ heq3
                rw [hla2] at hdisj
                refine ⟨⟨fun _ => ?_, fun _ => hr⟩, ?_, ?_⟩
                · rcases hdisj with ⟨ha, hb2, -, -⟩ | ⟨ha, hb2, -, -⟩
                  · exact Or.inl ⟨ha, hb2⟩
                  · exact Or.inr ⟨ha, hb2⟩
                · intro _ hdoor
                  rcases hdisj with ⟨-, -, hci, -⟩ | ⟨ha, -, -, -⟩
                  · exact hci
                  · rw [hdoor] at ha
                    rcases ha with ha | ha <;> simp at ha
                · intro _ hcrit
                  rcases hdisj with ⟨ha, -, -, -⟩ | ⟨-, -, hci, hcd⟩
                  · rw [ha] at hcrit
                    rcases hcrit with hcrit | hcrit <;> simp at hcrit
                  · exact ⟨hci, hcd⟩
              · rename_i s3 heq3
                obtain ⟨hs3, hn1, hn2⟩ := check_recovery_none _ _ _ heq3
                rw [hla2] at hn1 hn2
                have hvr := congrArg Prod.snd hE
                dsimp only at hvr
                have hfalse : v.is_recovering = false := by
                  rw [← hvr]
                  rfl
                refine ⟨⟨fun habs => ?_, fun hrhs => ?_⟩, ?_, ?_⟩
                · rw [hfalse] at habs
                  simp at habs
                · exfalso
                  rcases hrhs with ⟨ha, hb2⟩ | ⟨ha, hb2⟩
                  · exact hn1 ⟨ha, hb2⟩
                  · exact hn2 ⟨ha, hb2⟩
                · intro habs
                  rw [hfalse] at habs
                  simp at habs
                · intro habs
                  rw [hfalse] at habs
                  simp at habs
            · rename_i hoff
              exfalso
              have hcg : alert_active (update_consecutive s1 c) = alert_active s1 :=
                alert_active_congr _ _ hla2
              exact hoff (hcg.trans hact)

/-- C6 (amended): with an active alert, enough readings, a set baseline and no
new alert firing, the call clears to `NONE` with `isRecovering=true` exactly
when the deviation from the (post-update) baseline is within the recovery
threshold of the active kind; a `DOOR_OPENING` recovery resets only
`consecutive_increases`, a critical recovery resets both counters. -/
theorem recovery_amended (s : AnalyzerState) (temperature now b : ℚ)
    (hact : alert_active s = true)
    (hlen : 4 ≤ s.readings.length)
    (hb : (add_reading s temperature now).1.baseline_temp = some b)
    (hv : (add_reading s temperature now).2.alert_type = TemperatureAlertType.NONE) :
    ((add_reading s temperature now).2.is_recovering = true ↔
      ((s.last_alert = some TemperatureAlertType.DOOR_OPENING ∧
          |temperature - b| < 1 / 2) ∨
        ((s.last_alert = some TemperatureAlertType.CRITICAL_INCREASE ∨
          s.last_alert = some TemperatureAlertType.CRITICAL_DECREASE) ∧
          |temperature - b| < 1))) ∧
    ((add_reading s temperature now).2.is_recovering = true →
      s.last_alert = some TemperatureAlertType.DOOR_OPENING →
      (add_reading s temperature now).1.consecutive_increases = 0) ∧
    ((add_reading s temperature now).2.is_recovering = true →
      (s.last_alert = some TemperatureAlertType.CRITICAL_INCREASE ∨
        s.last_alert = some TemperatureAlertType.CRITICAL_DECREASE) →
      (add_reading s temperature now).1.consecutive_increases = 0 ∧
      (add_reading s temperature now).1.consecutive_decreases = 0) := by
  rcases hE : add_reading s temperature now with ⟨s', v⟩
  rw [hE] at hb hv
  dsimp only at hb hv ⊢
  simp only [add_reading] at hE
  split at hE
  · rename_i hlt
    exfalso
    rw [deque_append_length] at hlt
    simp only [READINGS_MAXLEN] at hlt
    omega
  · have hfr := analyze_pattern_frame _ _ _ _ _ hE
    have hub := update_baseline_frame
      { s with readings := deque_append s.readings ⟨temperature, now⟩ }
    have hb' : (update_baseline
        { s with readings := deque_append s.readings ⟨temperature, now⟩
        }).baseline_temp = some b := by
      rw [← hfr.1]
      exact hb
    have hact' : alert_active (update_baseline
        { s with readings := deque_append s.readings ⟨temperature, now⟩ }) = true := by
      have := alert_active_congr
        (update_baseline { s with readings := deque_append s.readings ⟨temperature, now⟩ })
        s (hub.2.1)
      rw [this]
      exact hact
    have hx := analyze_pattern_recovery_eq _ temperature now _ _ b hE hact' hb' hv
    have hla : (update_baseline
        { s with readings := deque_append s.readings ⟨temperature, now⟩
        }).last_alert = s.last_alert := hub.2.1
    rw [hla] at hx
    exact hx

/-- An analyzer with an active `DOOR_OPENING` alert whose next reading is a
slight decrease landing within 0.5 °C of the recomputed baseline. -/
def analyzer_door_recovery : AnalyzerState :=
  { readings := [⟨4, 0⟩, ⟨4, 60⟩, ⟨4, 120⟩, ⟨21 / 5, 180⟩],
    baseline_temp := some 4, last_alert := some TemperatureAlertType.DOOR_OPENING,
    alert_start_time := some 180, consecutive_increases := 3, consecutive_decreases := 0 }

/-- C6 (counterexample): a `DOOR_OPENING` recovery that clears with
`isRecovering=true` while `consecutive_decreases` ends at 1, not 0 — the DOOR
branch of `_check_recovery` resets only `consecutive_increases`, so the claim
that both counters are reset fails. -/
theorem door_recovery_counters_cex :
    (add_reading analyzer_door_recovery 4 240).2.alert_type =
      TemperatureAlertType.NONE ∧
    (add_reading analyzer_door_recovery 4 240).2.is_recovering = true ∧
    (add_reading analyzer_door_recovery 4 240).1.consecutive_increases = 0 ∧
    (add_reading analyzer_door_recovery 4 240).1.consecutive_decreases = 1 := by
  refine ⟨by decide, by decide, by decide, by decide⟩

theorem recovery_amended_witness :
    alert_active analyzer_door_recovery = true ∧
    4 ≤ analyzer_door_recovery.readings.length ∧
    (add_reading analyzer_door_recovery 4 240).1.baseline_temp = some (101 / 25) ∧
    (add_reading analyzer_door_recovery 4 240).2.alert_type =
      TemperatureAlertType.NONE ∧
    (add_reading analyzer_door_recovery 4 240).2.is_recovering = true :=
  ⟨by decide, by decide, by decide, by decide,
   (recovery_amended analyzer_door_recovery 4 240 (101 / 25) (by decide) (by decide)
     (by decide) (by decide)).1.mpr (Or.inl ⟨rfl, by decide⟩)⟩

